import Mathlib

/-
Verification of the crawldocs duplicate-detection and resumable
session-state subsystem (HelgeSverre/crawldocs).

Shallow-embedding conventions used throughout this development:
* Go machine integers (`int`, `int64`, `int32`) are modelled as `Int`;
  none of the embedded operations can overflow 64 bits for the
  inputs that matter to the verified properties.
* Go `float64` statistics fields are modelled as `Rat`; the JSON
  number type also carries a `Rat`, so numeric serialization is
  modelled at the resolution of exact numeric values.
* `time.Time` values are modelled as integer nanosecond counts; their
  RFC3339 JSON string form is modelled as the decimal rendering of
  that count (an injective, executable stand-in), and
  `time.Duration.String()` is likewise modelled as the decimal
  rendering of the nanosecond count.
* Go maps are modelled as association lists with unique keys; map
  assignment is `setAssoc`, lookup is `lookupAssoc`.
* JSON documents are modelled as a `Json` value tree; a file system is
  an association list from paths to `Json` values, so "corrupt file"
  means "value that the manifest decoder rejects".
-/

/-! ## Decimal rendering and parsing of integers

Used to model Go's JSON rendering of `map[int]int` keys (written as
quoted decimal strings) and the timestamp strings described above. -/

/-- Fuel-driven digit extraction; structurally recursive on the fuel so
that the kernel can evaluate it (`n` itself is always enough fuel). -/
def natDigitsRevAux : Nat → Nat → List Char
  | 0, _ => []
  | fuel + 1, n =>
    if n = 0 then [] else Char.ofNat (48 + n % 10) :: natDigitsRevAux fuel (n / 10)

/-- Decimal digits of `n`, least significant digit first; empty for `0`. -/
def natDigitsRev (n : Nat) : List Char :=
  natDigitsRevAux n n

/-- Decimal rendering of a natural number. -/
def natToString (n : Nat) : String :=
  if n = 0 then "0" else String.mk (natDigitsRev n).reverse

/-- Decimal rendering of an integer, with a leading minus sign when negative. -/
def intToString (i : Int) : String :=
  if i < 0 then "-" ++ natToString i.natAbs else natToString i.toNat

/-- Value of a decimal digit character, or `none` for a non-digit. -/
def digitVal (c : Char) : Option Nat :=
  if 48 ≤ c.toNat ∧ c.toNat ≤ 57 then some (c.toNat - 48) else none

/-- Accumulating decimal parser over a character list. -/
def parseNatAux (acc : Nat) : List Char → Option Nat
  | [] => some acc
  | c :: rest =>
    match digitVal c with
    | none => none
    | some d => parseNatAux (acc * 10 + d) rest

/-- Parse a nonempty list of decimal digits. -/
def parseNatChars (l : List Char) : Option Nat :=
  match l with
  | [] => none
  | _ :: _ => parseNatAux 0 l

/-- Parse an optionally minus-signed decimal integer from a character list. -/
def parseIntChars : List Char → Option Int
  | [] => none
  | c :: rest =>
    if c = '-' then (parseNatChars rest).map (fun n : Nat => -(n : Int))
    else (parseNatChars (c :: rest)).map (fun n : Nat => (n : Int))

/-- Parse an optionally minus-signed decimal integer. -/
def parseInt (s : String) : Option Int :=
  parseIntChars s.data

/-! ## JSON value trees -/

/-- JSON document tree; numbers carry exact rational values. -/
inductive Json where
  | null : Json
  | bool (b : Bool) : Json
  | num (q : Rat) : Json
  | str (s : String) : Json
  | arr (items : List Json) : Json
  | obj (fields : List (String × Json)) : Json

/-! ## Association-list maps (Go map model) -/

/-- Lookup in an association list (Go map read). -/
def lookupAssoc {α : Type} : List (String × α) → String → Option α
  | [], _ => none
  | (k', v) :: rest, k => if k' = k then some v else lookupAssoc rest k

/-- Assignment in an association list (Go map write: replace or append). -/
def setAssoc {α : Type} : List (String × α) → String → α → List (String × α)
  | [], k, v => [(k, v)]
  | (k', v') :: rest, k, v =>
    if k' = k then (k, v) :: rest else (k', v') :: setAssoc rest k v

/-- Removal from an association list (Go map delete / file removal). -/
def removeAssoc {α : Type} : List (String × α) → String → List (String × α)
  | [], _ => []
  | (k', v') :: rest, k =>
    if k' = k then removeAssoc rest k else (k', v') :: removeAssoc rest k

/-- Increment of a counter map entry (Go `m[k]++`: missing keys count from zero). -/
def bumpCount {κ : Type} [DecidableEq κ] : List (κ × Int) → κ → List (κ × Int)
  | [], k => [(k, 1)]
  | (k', v) :: rest, k =>
    if k' = k then (k', v + 1) :: rest else (k', v) :: bumpCount rest k

/-! ## Data model (structs of `manifest.go`)

Field names follow the Go structs; the unexported `mutex` field carries
no data and is omitted (the embedding is sequential: each Go method
body runs under the manifest lock). -/

/-- Embedding of `ProcessingTimeStats` (`manifest.go`). -/
structure ProcessingTimeStats where
  min : Int
  max : Int
  average : Rat
  total : Int
deriving DecidableEq

/-- Embedding of `CrawlStatistics` (`manifest.go`); the three Go count
maps become association lists. -/
structure CrawlStatistics where
  totalPages : Int
  successfulPages : Int
  failedPages : Int
  skippedPages : Int
  duplicatePages : Int
  totalBytes : Int
  averagePageSize : Int
  crawlDuration : String
  pagesPerSecond : Rat
  bytesPerSecond : Rat
  errorTypes : List (String × Int)
  statusCodes : List (Int × Int)
  contentTypes : List (String × Int)
  processingTimes : ProcessingTimeStats
deriving DecidableEq

/-- Embedding of `CrawlMetadata` (`manifest.go`); timestamps are integer
nanosecond counts. -/
structure CrawlMetadata where
  sessionID : String
  startTime : Int
  endTime : Int
  status : String
  baseURL : String
  domain : String
  outputDir : String
deriving DecidableEq

/-- Embedding of `PageInfo` (`manifest.go`). -/
structure PageInfo where
  url : String
  title : String
  contentHash : String
  fileSize : Int
  fileName : String
  crawledAt : Int
  lastModified : Int
  responseCode : Int
  contentType : String
  processingTime : Int
  linksFound : List String
  extractedLinks : Int
  parentURL : String
  depth : Int
  status : String
  errorMessage : String
  metadata : List (String × String)
deriving DecidableEq

/-- Embedding of `QueueItem` (`manifest.go`). -/
structure QueueItem where
  url : String
  parentURL : String
  depth : Int
  priority : Int
  addedAt : Int
deriving DecidableEq

/-- Embedding of `CrawlConfig` (`manifest.go`). -/
structure CrawlConfig where
  maxPages : Int
  parallelism : Int
  verbose : Bool
  userAgent : String
  rateLimit : Int
  timeout : Int
deriving DecidableEq

/-- Embedding of `CrawlManifest` (`manifest.go`); the `Pages` map becomes
an association list keyed by URL. -/
structure CrawlManifest where
  version : String
  metadata : CrawlMetadata
  pages : List (String × PageInfo)
  queue : List QueueItem
  statistics : CrawlStatistics
  config : CrawlConfig
deriving DecidableEq

/-- Constant `ManifestVersion` from the crawler source. -/
def ManifestVersion : String := "1.1.0"

/-- A `PageInfo` whose fields are all Go zero values; used for the record
literals the crawler builds with only some fields set. -/
def emptyPageInfo : PageInfo :=
  { url := "", title := "", contentHash := "", fileSize := 0, fileName := "",
    crawledAt := 0, lastModified := 0, responseCode := 0, contentType := "",
    processingTime := 0, linksFound := [], extractedLinks := 0, parentURL := "",
    depth := 0, status := "", errorMessage := "", metadata := [] }

/-- A `CrawlMetadata` of Go zero values (what `json.Decode` yields for a
missing object field). -/
def emptyMetadata : CrawlMetadata :=
  { sessionID := "", startTime := 0, endTime := 0, status := "", baseURL := "",
    domain := "", outputDir := "" }

/-- A `CrawlStatistics` of Go zero values. -/
def emptyStatistics : CrawlStatistics :=
  { totalPages := 0, successfulPages := 0, failedPages := 0, skippedPages := 0,
    duplicatePages := 0, totalBytes := 0, averagePageSize := 0, crawlDuration := "",
    pagesPerSecond := 0, bytesPerSecond := 0, errorTypes := [], statusCodes := [],
    contentTypes := [], processingTimes := { min := 0, max := 0, average := 0, total := 0 } }

/-- A `CrawlConfig` of Go zero values. -/
def emptyConfig : CrawlConfig :=
  { maxPages := 0, parallelism := 0, verbose := false, userAgent := "",
    rateLimit := 0, timeout := 0 }

/-! ## Manifest operations (`manifest.go`) -/

/-- Embedding of `NewManifest` (`manifest.go`); `now` is the creation
timestamp that Go obtains from `time.Now()`. -/
def newManifest (baseURL domain outputDir : String) (now : Int) (config : CrawlConfig) :
    CrawlManifest :=
  { version := ManifestVersion,
    metadata :=
      { sessionID := "crawl-" ++ intToString now, startTime := now, endTime := 0,
        status := "running", baseURL := baseURL, domain := domain, outputDir := outputDir },
    pages := [], queue := [],
    statistics := emptyStatistics,
    config := config }

/-- Embedding of `CrawlManifest.AddPage` (`manifest.go`). -/
def addPage (m : CrawlManifest) (info : PageInfo) : CrawlManifest :=
  let pages := setAssoc m.pages info.url info
  let s0 := { m.statistics with totalPages := m.statistics.totalPages + 1 }
  let s : CrawlStatistics :=
    if info.status = "completed" then
      let pt : ProcessingTimeStats := s0.processingTimes
      let newMin : Int :=
        if pt.min = 0 ∨ info.processingTime < pt.min then info.processingTime else pt.min
      let newMax : Int := if pt.max < info.processingTime then info.processingTime else pt.max
      let newTotal : Int := pt.total + info.processingTime
      let succ := s0.successfulPages + 1
      { s0 with
        successfulPages := succ,
        totalBytes := s0.totalBytes + info.fileSize,
        statusCodes := bumpCount s0.statusCodes info.responseCode,
        contentTypes := bumpCount s0.contentTypes info.contentType,
        processingTimes :=
          { min := newMin, max := newMax, total := newTotal,
            average := (newTotal : Rat) / (succ : Rat) } }
    else if info.status = "failed" then
      { s0 with
        failedPages := s0.failedPages + 1,
        errorTypes :=
          if info.errorMessage ≠ "" then bumpCount s0.errorTypes info.errorMessage
          else s0.errorTypes }
    else if info.status = "skipped" then
      { s0 with skippedPages := s0.skippedPages + 1 }
    else s0
  { m with pages := pages, statistics := s }

/-- Embedding of `CrawlManifest.GetDuplicatePage` (`manifest.go`): first
completed page with the given content hash (Go map iteration order is
modelled as list order). -/
def getDuplicatePage (m : CrawlManifest) (contentHash : String) : Option PageInfo :=
  (m.pages.find? (fun p => p.2.contentHash == contentHash && p.2.status == "completed")).map
    (fun p => p.2)

/-- Embedding of `CrawlManifest.IsVisited` (`manifest.go`). -/
def isVisited (m : CrawlManifest) (url : String) : Bool :=
  (lookupAssoc m.pages url).isSome

/-- Embedding of `CrawlManifest.UpdateStatistics` (`manifest.go`); `now`
is the timestamp that Go obtains from `time.Since(StartTime)`, and the
Go `int64` division for the average page size truncates toward zero. -/
def updateStatistics (now : Int) (m : CrawlManifest) : CrawlManifest :=
  let s0 := m.statistics
  let s1 :=
    if 0 < s0.successfulPages then
      { s0 with averagePageSize := Int.tdiv s0.totalBytes s0.successfulPages }
    else s0
  let duration : Int := now - m.metadata.startTime
  let secs : Rat := (duration : Rat) / 1000000000
  let s2 := { s1 with crawlDuration := intToString duration }
  let s3 :=
    if 0 < secs then
      { s2 with
        pagesPerSecond := (s2.totalPages : Rat) / secs,
        bytesPerSecond := (s2.totalBytes : Rat) / secs }
    else s2
  { m with statistics := s3 }

/-- Embedding of `CrawlManifest.Complete` (`manifest.go`). -/
def completeManifest (now : Int) (m : CrawlManifest) : CrawlManifest :=
  updateStatistics now
    { m with metadata := { m.metadata with endTime := now, status := "completed" } }

/-- Embedding of `CalculateContentHash` (`manifest.go`). The Go function
is a SHA-256 hex digest used purely for content addressing; it is
modelled as an injective executable stand-in (the identity on the
hashed representation), which is faithful at the resolution of a
collision-free digest. -/
def calculateContentHash (content : String) : String :=
  content

/-- Embedding of `CrawlManifest.GetProgress` (`manifest.go`). -/
def getProgress (m : CrawlManifest) : Int × Int × Rat :=
  let completed := m.statistics.totalPages
  let total0 := m.config.maxPages
  let total := if total0 = 0 then completed + (m.queue.length : Int) else total0
  let percentage : Rat := if 0 < total then (completed : Rat) / (total : Rat) * 100 else 0
  (completed, total, percentage)

/-! ## JSON serialization of the manifest

Encoders follow the Go struct tags of `manifest.go` (field names, field
order, `omitempty` on the string and map fields where it has an effect;
`omitempty` on `time.Time` struct fields has no effect in Go and those
fields are always emitted).  Decoders follow `encoding/json` semantics:
fields are looked up by key, a missing field leaves the Go zero value,
and a type mismatch fails. -/

/-- Object fields of a JSON object, if any. -/
def jObj? : Json → Option (List (String × Json))
  | .obj fields => some fields
  | _ => none

/-- String payload of a JSON string, if any. -/
def jStr? : Json → Option String
  | .str s => some s
  | _ => none

/-- Rational payload of a JSON number, if any. -/
def jNum? : Json → Option Rat
  | .num q => some q
  | _ => none

/-- Boolean payload of a JSON bool, if any. -/
def jBool? : Json → Option Bool
  | .bool b => some b
  | _ => none

/-- Monadic map over `Option` (structural recursion form of `mapM`). -/
def mapMOpt {α β : Type} (f : α → Option β) : List α → Option (List β)
  | [] => some []
  | a :: rest => do
    let b ← f a
    let bs ← mapMOpt f rest
    some (b :: bs)

/-- Integer payload of an integral JSON number, if any. -/
def jInt? : Json → Option Int
  | .num q => if q.den = 1 then some q.num else none
  | _ => none

/-- Decode one object field: absent fields yield the Go zero value `d`,
present fields must decode with `f`. -/
def getField {α : Type} (fields : List (String × Json)) (k : String) (d : α)
    (f : Json → Option α) : Option α :=
  match lookupAssoc fields k with
  | none => some d
  | some j => f j

/-- Emit a string field honoring `omitempty`. -/
def optStrField (k : String) (s : String) : List (String × Json) :=
  if s = "" then [] else [(k, .str s)]

/-- Encode a time value (integer nanosecond count) as its JSON string form. -/
def encodeTime (t : Int) : Json :=
  .str (intToString t)

/-- Decode a time value from its JSON string form. -/
def jTime? (j : Json) : Option Int :=
  match j with
  | .str s => parseInt s
  | _ => none

/-- Encode a `[]string` value. -/
def encodeStrList (l : List String) : Json :=
  .arr (l.map .str)

/-- Decode a `[]string` value (`null` is Go's nil slice). -/
def decodeStrList : Json → Option (List String)
  | .null => some []
  | .arr items => mapMOpt jStr? items
  | _ => none

/-- Encode a `map[string]string` value. -/
def encodeStrMap (l : List (String × String)) : Json :=
  .obj (l.map (fun kv => (kv.1, .str kv.2)))

/-- Decode a `map[string]string` value (`null` is Go's nil map). -/
def decodeStrMap : Json → Option (List (String × String))
  | .null => some []
  | .obj kvs => mapMOpt (fun kv => (jStr? kv.2).map (fun v => (kv.1, v))) kvs
  | _ => none

/-- Encode a `map[string]int` counter map. -/
def encodeCountMapS (l : List (String × Int)) : Json :=
  .obj (l.map (fun kv => (kv.1, .num (kv.2 : Rat))))

/-- Decode a `map[string]int` counter map. -/
def decodeCountMapS : Json → Option (List (String × Int))
  | .null => some []
  | .obj kvs => mapMOpt (fun kv => (jInt? kv.2).map (fun v => (kv.1, v))) kvs
  | _ => none

/-- Encode a `map[int]int` counter map; Go renders the integer keys as
quoted decimal strings. -/
def encodeCountMapI (l : List (Int × Int)) : Json :=
  .obj (l.map (fun kv => (intToString kv.1, .num (kv.2 : Rat))))

/-- Decode a `map[int]int` counter map, parsing the decimal string keys. -/
def decodeCountMapI : Json → Option (List (Int × Int))
  | .null => some []
  | .obj kvs =>
    mapMOpt (fun kv => do
      let k ← parseInt kv.1
      let v ← jInt? kv.2
      some (k, v)) kvs
  | _ => none

/-- Encoder for `ProcessingTimeStats`. -/
def encodeProcessingTimes (pt : ProcessingTimeStats) : Json :=
  .obj [("min_ms", .num (pt.min : Rat)), ("max_ms", .num (pt.max : Rat)),
        ("average_ms", .num pt.average), ("total_ms", .num (pt.total : Rat))]

/-- Decoder for `ProcessingTimeStats`. -/
def decodeProcessingTimes (j : Json) : Option ProcessingTimeStats :=
  match jObj? j with
  | none => none
  | some fields =>
  match getField fields "min_ms" 0 jInt? with
  | none => none
  | some min =>
  match getField fields "max_ms" 0 jInt? with
  | none => none
  | some max =>
  match getField fields "average_ms" 0 jNum? with
  | none => none
  | some average =>
  match getField fields "total_ms" 0 jInt? with
  | none => none
  | some total =>
  some { min := min, max := max, average := average, total := total }

/-- Encoder for `CrawlStatistics`. -/
def encodeStatistics (s : CrawlStatistics) : Json :=
  .obj [("total_pages", .num (s.totalPages : Rat)),
        ("successful_pages", .num (s.successfulPages : Rat)),
        ("failed_pages", .num (s.failedPages : Rat)),
        ("skipped_pages", .num (s.skippedPages : Rat)),
        ("duplicate_pages", .num (s.duplicatePages : Rat)),
        ("total_bytes", .num (s.totalBytes : Rat)),
        ("average_page_size", .num (s.averagePageSize : Rat)),
        ("crawl_duration", .str s.crawlDuration),
        ("pages_per_second", .num s.pagesPerSecond),
        ("bytes_per_second", .num s.bytesPerSecond),
        ("error_types", encodeCountMapS s.errorTypes),
        ("status_codes", encodeCountMapI s.statusCodes),
        ("content_types", encodeCountMapS s.contentTypes),
        ("processing_times", encodeProcessingTimes s.processingTimes)]

/-- Decoder for `CrawlStatistics`. -/
def decodeStatistics (j : Json) : Option CrawlStatistics :=
  match jObj? j with
  | none => none
  | some fields =>
  match getField fields "total_pages" 0 jInt? with
  | none => none
  | some totalPages =>
  match getField fields "successful_pages" 0 jInt? with
  | none => none
  | some successfulPages =>
  match getField fields "failed_pages" 0 jInt? with
  | none => none
  | some failedPages =>
  match getField fields "skipped_pages" 0 jInt? with
  | none => none
  | some skippedPages =>
  match getField fields "duplicate_pages" 0 jInt? with
  | none => none
  | some duplicatePages =>
  match getField fields "total_bytes" 0 jInt? with
  | none => none
  | some totalBytes =>
  match getField fields "average_page_size" 0 jInt? with
  | none => none
  | some averagePageSize =>
  match getField fields "crawl_duration" "" jStr? with
  | none => none
  | some crawlDuration =>
  match getField fields "pages_per_second" 0 jNum? with
  | none => none
  | some pagesPerSecond =>
  match getField fields "bytes_per_second" 0 jNum? with
  | none => none
  | some bytesPerSecond =>
  match getField fields "error_types" [] decodeCountMapS with
  | none => none
  | some errorTypes =>
  match getField fields "status_codes" [] decodeCountMapI with
  | none => none
  | some statusCodes =>
  match getField fields "content_types" [] decodeCountMapS with
  | none => none
  | some contentTypes =>
  match getField fields "processing_times" { min := 0, max := 0, average := 0, total := 0 } decodeProcessingTimes with
  | none => none
  | some processingTimes =>
  some { totalPages := totalPages, successfulPages := successfulPages, failedPages := failedPages, skippedPages := skippedPages, duplicatePages := duplicatePages, totalBytes := totalBytes, averagePageSize := averagePageSize, crawlDuration := crawlDuration, pagesPerSecond := pagesPerSecond, bytesPerSecond := bytesPerSecond, errorTypes := errorTypes, statusCodes := statusCodes, contentTypes := contentTypes, processingTimes := processingTimes }

/-- Encoder for `CrawlMetadata`. -/
def encodeMetadata (md : CrawlMetadata) : Json :=
  .obj [("session_id", .str md.sessionID),
        ("start_time", encodeTime md.startTime),
        ("end_time", encodeTime md.endTime),
        ("status", .str md.status),
        ("base_url", .str md.baseURL),
        ("domain", .str md.domain),
        ("output_dir", .str md.outputDir)]

/-- Decoder for `CrawlMetadata`. -/
def decodeMetadata (j : Json) : Option CrawlMetadata :=
  match jObj? j with
  | none => none
  | some fields =>
  match getField fields "session_id" "" jStr? with
  | none => none
  | some sessionID =>
  match getField fields "start_time" 0 jTime? with
  | none => none
  | some startTime =>
  match getField fields "end_time" 0 jTime? with
  | none => none
  | some endTime =>
  match getField fields "status" "" jStr? with
  | none => none
  | some status =>
  match getField fields "base_url" "" jStr? with
  | none => none
  | some baseURL =>
  match getField fields "domain" "" jStr? with
  | none => none
  | some domain =>
  match getField fields "output_dir" "" jStr? with
  | none => none
  | some outputDir =>
  some { sessionID := sessionID, startTime := startTime, endTime := endTime, status := status, baseURL := baseURL, domain := domain, outputDir := outputDir }

/-- Encoder for `PageInfo`. -/
def encodePageInfo (p : PageInfo) : Json :=
  .obj ([("url", .str p.url),
         ("title", .str p.title),
         ("content_hash", .str p.contentHash),
         ("file_size", .num (p.fileSize : Rat)),
         ("file_name", .str p.fileName),
         ("crawled_at", encodeTime p.crawledAt),
         ("last_modified", encodeTime p.lastModified),
         ("response_code", .num (p.responseCode : Rat)),
         ("content_type", .str p.contentType),
         ("processing_time_ms", .num (p.processingTime : Rat)),
         ("links_found", encodeStrList p.linksFound),
         ("extracted_links", .num (p.extractedLinks : Rat))]
        ++ optStrField "parent_url" p.parentURL
        ++ [("depth", .num (p.depth : Rat)),
            ("status", .str p.status)]
        ++ optStrField "error_message" p.errorMessage
        ++ (if p.metadata = [] then [] else [("metadata", encodeStrMap p.metadata)]))

/-- Decoder for `PageInfo`. -/
def decodePageInfo (j : Json) : Option PageInfo :=
  match jObj? j with
  | none => none
  | some fields =>
  match getField fields "url" "" jStr? with
  | none => none
  | some url =>
  match getField fields "title" "" jStr? with
  | none => none
  | some title =>
  match getField fields "content_hash" "" jStr? with
  | none => none
  | some contentHash =>
  match getField fields "file_size" 0 jInt? with
  | none => none
  | some fileSize =>
  match getField fields "file_name" "" jStr? with
  | none => none
  | some fileName =>
  match getField fields "crawled_at" 0 jTime? with
  | none => none
  | some crawledAt =>
  match getField fields "last_modified" 0 jTime? with
  | none => none
  | some lastModified =>
  match getField fields "response_code" 0 jInt? with
  | none => none
  | some responseCode =>
  match getField fields "content_type" "" jStr? with
  | none => none
  | some contentType =>
  match getField fields "processing_time_ms" 0 jInt? with
  | none => none
  | some processingTime =>
  match getField fields "links_found" [] decodeStrList with
  | none => none
  | some linksFound =>
  match getField fields "extracted_links" 0 jInt? with
  | none => none
  | some extractedLinks =>
  match getField fields "parent_url" "" jStr? with
  | none => none
  | some parentURL =>
  match getField fields "depth" 0 jInt? with
  | none => none
  | some depth =>
  match getField fields "status" "" jStr? with
  | none => none
  | some status =>
  match getField fields "error_message" "" jStr? with
  | none => none
  | some errorMessage =>
  match getField fields "metadata" [] decodeStrMap with
  | none => none
  | some metadata =>
  some { url := url, title := title, contentHash := contentHash, fileSize := fileSize, fileName := fileName, crawledAt := crawledAt, lastModified := lastModified, responseCode := responseCode, contentType := contentType, processingTime := processingTime, linksFound := linksFound, extractedLinks := extractedLinks, parentURL := parentURL, depth := depth, status := status, errorMessage := errorMessage, metadata := metadata }

/-- Encoder for `QueueItem`. -/
def encodeQueueItem (q : QueueItem) : Json :=
  .obj [("url", .str q.url),
        ("parent_url", .str q.parentURL),
        ("depth", .num (q.depth : Rat)),
        ("priority", .num (q.priority : Rat)),
        ("added_at", encodeTime q.addedAt)]

/-- Decoder for `QueueItem`. -/
def decodeQueueItem (j : Json) : Option QueueItem :=
  match jObj? j with
  | none => none
  | some fields =>
  match getField fields "url" "" jStr? with
  | none => none
  | some url =>
  match getField fields "parent_url" "" jStr? with
  | none => none
  | some parentURL =>
  match getField fields "depth" 0 jInt? with
  | none => none
  | some depth =>
  match getField fields "priority" 0 jInt? with
  | none => none
  | some priority =>
  match getField fields "added_at" 0 jTime? with
  | none => none
  | some addedAt =>
  some { url := url, parentURL := parentURL, depth := depth, priority := priority, addedAt := addedAt }

/-- Encoder for `CrawlConfig`. -/
def encodeConfig (c : CrawlConfig) : Json :=
  .obj [("max_pages", .num (c.maxPages : Rat)),
        ("parallelism", .num (c.parallelism : Rat)),
        ("verbose", .bool c.verbose),
        ("user_agent", .str c.userAgent),
        ("rate_limit", .num (c.rateLimit : Rat)),
        ("timeout_seconds", .num (c.timeout : Rat))]

/-- Decoder for `CrawlConfig`. -/
def decodeConfig (j : Json) : Option CrawlConfig :=
  match jObj? j with
  | none => none
  | some fields =>
  match getField fields "max_pages" 0 jInt? with
  | none => none
  | some maxPages =>
  match getField fields "parallelism" 0 jInt? with
  | none => none
  | some parallelism =>
  match getField fields "verbose" false jBool? with
  | none => none
  | some verbose =>
  match getField fields "user_agent" "" jStr? with
  | none => none
  | some userAgent =>
  match getField fields "rate_limit" 0 jInt? with
  | none => none
  | some rateLimit =>
  match getField fields "timeout_seconds" 0 jInt? with
  | none => none
  | some timeout =>
  some { maxPages := maxPages, parallelism := parallelism, verbose := verbose, userAgent := userAgent, rateLimit := rateLimit, timeout := timeout }

/-- Encoder for the URL-to-PageRecord map. -/
def encodePages (pages : List (String × PageInfo)) : Json :=
  .obj (pages.map (fun kv => (kv.1, encodePageInfo kv.2)))

/-- Decoder for the URL-to-PageRecord map (`null` is Go's nil map). -/
def decodePages : Json → Option (List (String × PageInfo))
  | .null => some []
  | .obj kvs => mapMOpt (fun kv => (decodePageInfo kv.2).map (fun p => (kv.1, p))) kvs
  | _ => none

/-- Encoder for the pending queue. -/
def encodeQueue (queue : List QueueItem) : Json :=
  .arr (queue.map encodeQueueItem)

/-- Decoder for the pending queue (`null` is Go's nil slice). -/
def decodeQueue : Json → Option (List QueueItem)
  | .null => some []
  | .arr items => mapMOpt decodeQueueItem items
  | _ => none

/-- Encoder for the whole `CrawlManifest` document. -/
def encodeManifest (m : CrawlManifest) : Json :=
  .obj [("version", .str m.version),
        ("metadata", encodeMetadata m.metadata),
        ("pages", encodePages m.pages),
        ("queue", encodeQueue m.queue),
        ("statistics", encodeStatistics m.statistics),
        ("config", encodeConfig m.config)]

/-- Decoder for the whole `CrawlManifest` document. -/
def decodeManifest (j : Json) : Option CrawlManifest :=
  match jObj? j with
  | none => none
  | some fields =>
  match getField fields "version" "" jStr? with
  | none => none
  | some version =>
  match getField fields "metadata" emptyMetadata decodeMetadata with
  | none => none
  | some metadata =>
  match getField fields "pages" [] decodePages with
  | none => none
  | some pages =>
  match getField fields "queue" [] decodeQueue with
  | none => none
  | some queue =>
  match getField fields "statistics" emptyStatistics decodeStatistics with
  | none => none
  | some statistics =>
  match getField fields "config" emptyConfig decodeConfig with
  | none => none
  | some config =>
  some { version := version, metadata := metadata, pages := pages, queue := queue, statistics := statistics, config := config }

/-! ## Durable storage model and `Save` / `LoadManifest`

A file system is an association list from paths to JSON documents.
`Save` may be made to fail at each of its three fallible steps
(`os.Create`, `Encode`, `os.Rename`) through an injected fault, which
models the corresponding system-call failures. -/

/-- File-system state: path to stored JSON document. -/
abbrev FS := List (String × Json)

/-- A point at which `Save` can fail. -/
inductive SaveStepFailure where
  | createFailed : SaveStepFailure
  | encodeFailed : SaveStepFailure
  | renameFailed : SaveStepFailure
deriving DecidableEq

/-- Canonical manifest path `filepath.Join(outputDir, "crawl-manifest.json")`. -/
def manifestPathOf (outputDir : String) : String :=
  outputDir ++ "/crawl-manifest.json"

/-- Embedding of `CrawlManifest.Save` (`manifest.go`): update statistics,
create the temporary file, encode into it, then atomically rename it
onto the canonical path.  A fault at `createFailed` aborts before any
file exists; at `encodeFailed` the temporary file is left behind
partially written (modelled as the empty document `Json.null`); at
`renameFailed` the fully encoded temporary file is left behind.  The
canonical path is only ever touched by the final rename. -/
def saveManifest (fs : FS) (outputDir : String) (m : CrawlManifest) (now : Int)
    (fault : Option SaveStepFailure) : FS × Except SaveStepFailure Unit :=
  let m1 := updateStatistics now m
  let path := manifestPathOf outputDir
  let tmp := path ++ ".tmp"
  if fault = some .createFailed then (fs, .error .createFailed)
  else
    let fsCreated := setAssoc fs tmp Json.null
    if fault = some .encodeFailed then (fsCreated, .error .encodeFailed)
    else
      let fsWritten := setAssoc fsCreated tmp (encodeManifest m1)
      if fault = some .renameFailed then (fsWritten, .error .renameFailed)
      else (setAssoc (removeAssoc fsWritten tmp) path (encodeManifest m1), .ok ())

/-- The two failure kinds of `LoadManifest` (`manifest.go`): `os.Open`
failing because no file exists, or `json.Decode` rejecting the file. -/
inductive LoadFailure where
  | openFailed : LoadFailure
  | decodeFailed : LoadFailure
deriving DecidableEq

/-- Embedding of `LoadManifest` (`manifest.go`). -/
def loadManifest (fs : FS) (outputDir : String) : Except LoadFailure CrawlManifest :=
  match lookupAssoc fs (manifestPathOf outputDir) with
  | none => .error .openFailed
  | some j =>
    match decodeManifest j with
    | none => .error .decodeFailed
    | some m => .ok m

/-! ## Crawler model (`NewCrawler`, `savePage`, `fileWriteWorker`)

The colly collector, HTTP transport and rate limiter are external
collaborators; the embedding covers the crawler's own state and the
decision logic of its callbacks.  The bloom filter and the BigCache
content cache are modelled as exact sets/maps: both start empty, a
fresh bloom filter has no false positives to report, and cache
expiry/eviction is below the resolution needed by the claims. -/

/-- In-memory crawler state relevant to duplicate detection and the
manifest: the manifest, the BigCache content cache (content hash to
first URL), the URL bloom filter, and the atomic page counter. -/
structure CrawlerState where
  manifest : CrawlManifest
  contentCache : List (String × String)
  urlBloom : List String
  pageCount : Int
  outputDir : String
deriving DecidableEq

/-- Manifest selection in `NewCrawler` (`part_001`, resume capability):
a fresh manifest is built, and an existing manifest replaces it only
when it loads successfully and its session status is `"running"`. -/
def resumeManifestChoice (fs : FS) (outputDir : String) (fresh : CrawlManifest) :
    CrawlManifest :=
  match loadManifest fs outputDir with
  | .ok existing => if existing.metadata.status = "running" then existing else fresh
  | .error _ => fresh

/-- Embedding of the crawler state built by `NewCrawler` (`part_001`):
whatever manifest is chosen, the content cache and the bloom filter
are created empty; no state is replayed from a loaded manifest. -/
def newCrawlerState (fs : FS) (outputDir : String) (fresh : CrawlManifest) :
    CrawlerState :=
  { manifest := resumeManifestChoice fs outputDir fresh,
    contentCache := [], urlBloom := [], pageCount := 0, outputDir := outputDir }

/-- Inputs that the colly HTML callback hands to `savePage`
(`part_001`): the request URL and its path, the raw title text, the
HTTP response data, and the cleaned content produced by the cleaning
pipeline (`validateContent` in `clean.go` computes the cleaned text;
its length check is embedded in `savePage` below). -/
structure SavePageInput where
  url : String
  urlPath : String
  title : String
  statusCode : Int
  contentType : String
  cleanedContent : String
  linksFound : List String
deriving DecidableEq

/-- An asynchronous write task (`writeTask` in `part_001`). -/
structure WriteTask where
  filePath : String
  content : String
  pageInfo : Option PageInfo
deriving DecidableEq

/-- Status text table used for non-200 responses.  The Go helper
`getHTTPStatusText` is not among the provided sources and none of the
verified claims depends on its text, so it is modelled as the empty
string. -/
def getHTTPStatusText (_ : Int) : String :=
  ""

/-- Embedding of `slugify` (`part_001` and `part_000`): the crawler
passes the URL through `url.Parse` first, so the model takes the parse
result (`none` models a parse error, `some path` the parsed URL path).
The regex `[^a-zA-Z0-9\-_]` is applied per character. -/
def isSlugSafeChar (c : Char) : Bool :=
  (('a' ≤ c && c ≤ 'z') || ('A' ≤ c && c ≤ 'Z') || ('0' ≤ c && c ≤ '9')
    || c == '-' || c == '_')

/-- Trim every leading and trailing occurrence of `t` (Go `strings.Trim`
with a one-character cutset). -/
def trimChar (t : Char) (l : List Char) : List Char :=
  ((l.dropWhile (fun c => c == t)).reverse.dropWhile (fun c => c == t)).reverse

/-- Collapse every run of hyphens to a single hyphen (the Go regex
replacement of `-+` by `-`). -/
def collapseHyphens : List Char → List Char
  | [] => []
  | c :: rest =>
    match collapseHyphens rest with
    | [] => [c]
    | d :: tail => if c == '-' && d == '-' then d :: tail else c :: d :: tail

/-- Embedding of `slugify`: see `isSlugSafeChar` for the regex model. -/
def slugify (parsedPath : Option String) : String :=
  match parsedPath with
  | none => "index"
  | some path =>
    if path = "" ∨ path = "/" then "index"
    else
      let cs0 := trimChar '/' path.data
      let cs1 := cs0.map (fun c => if c == '/' then '-' else c)
      let cs2 := cs1.map (fun c => if isSlugSafeChar c then c else '-')
      let cs3 := collapseHyphens cs2
      let cs4 := trimChar '-' cs3
      if cs4 = [] then "index"
      else if 200 < cs4.length then String.mk (cs4.take 200) else String.mk cs4

/-- Embedding of the tail of `savePage` (`part_001`) that stores a novel
page: record the content hash in the content cache, bump the page
counter, build the final markdown document, and enqueue the write task
carrying the `"completed"` `PageInfo`.  The numeric-suffix collision
loop over already existing files is elided (no verified claim mentions
it), so the file name is the slug of the URL path. -/
def savePageStore (st : CrawlerState) (i : SavePageInput) (now ems : Int)
    (title contentHash : String) : CrawlerState × Option WriteTask :=
  let cache := setAssoc st.contentCache contentHash i.url
  let slug := slugify (some i.urlPath)
  let fileName := slug ++ ".md"
  let finalContent :=
    "# " ++ title ++ "\n\nSource: " ++ i.url ++ "\n\n---\n\n" ++ i.cleanedContent
  let info : PageInfo :=
    { url := i.url, title := title, contentHash := contentHash,
      fileSize := (finalContent.utf8ByteSize : Int), fileName := fileName,
      crawledAt := now, lastModified := 0, responseCode := i.statusCode,
      contentType := i.contentType, processingTime := ems,
      linksFound := i.linksFound, extractedLinks := (i.linksFound.length : Int),
      parentURL := "", depth := 0, status := "completed", errorMessage := "",
      metadata := [] }
  ({ st with contentCache := cache, pageCount := st.pageCount + 1 },
   some { filePath := st.outputDir ++ "/" ++ fileName, content := finalContent,
          pageInfo := some info })

/-- Embedding of `savePage` (`part_001`).  `now` models `time.Now()` and
`ems` the elapsed milliseconds `time.Since(startTime).Milliseconds()`
recorded in the page records.  Content lengths are UTF-8 byte counts,
matching Go's `len` on strings.  Stages in source order: the non-200
branch, the minimum-content-length check of `validateContent`
(threshold 100), title and URL-path normalization, the short-content
hash composition (threshold 500), the BigCache duplicate lookup with
the 500-byte duplicate exemption, and finally the store path. -/
def savePage (st : CrawlerState) (i : SavePageInput) (now ems : Int) :
    CrawlerState × Option WriteTask :=
  if i.statusCode ≠ 200 then
    let reason := intToString i.statusCode ++ " " ++ getHTTPStatusText i.statusCode
    let pageStatus := if 400 ≤ i.statusCode then "failed" else "skipped"
    let rec0 : PageInfo :=
      { emptyPageInfo with
        url := i.url,
        status := pageStatus,
        errorMessage := reason,
        responseCode := i.statusCode,
        crawledAt := now,
        processingTime := ems }
    ({ st with manifest := addPage st.manifest rec0 }, none)
  else if i.cleanedContent.utf8ByteSize < 100 then
    let rec0 : PageInfo :=
      { emptyPageInfo with
        url := i.url,
        status := "skipped",
        errorMessage := "minimal content",
        responseCode := i.statusCode,
        crawledAt := now,
        processingTime := ems }
    ({ st with manifest := addPage st.manifest rec0 }, none)
  else
    let title0 := i.title.trim
    let title := if title0 = "" then "Untitled" else title0
    let urlPath := if i.urlPath = "" then "/" else i.urlPath
    let contentForHash :=
      if i.cleanedContent.utf8ByteSize < 500 then
        "URL:" ++ urlPath ++ "\nTITLE:" ++ title ++ "\n" ++ i.cleanedContent
      else i.cleanedContent
    let contentHash := calculateContentHash contentForHash
    match lookupAssoc st.contentCache contentHash with
    | some cachedURL =>
      if 500 ≤ i.cleanedContent.utf8ByteSize then
        let duplicateMsg :=
          match getDuplicatePage st.manifest contentHash with
          | some orig => "duplicate of " ++ orig.url
          | none => "duplicate of " ++ cachedURL
        let rec0 : PageInfo :=
          { emptyPageInfo with
            url := i.url,
            status := "skipped",
            errorMessage := duplicateMsg,
            contentHash := contentHash,
            crawledAt := now,
            processingTime := ems }
        let m1 := addPage st.manifest rec0
        let m2 := { m1 with statistics :=
          { m1.statistics with duplicatePages := m1.statistics.duplicatePages + 1 } }
        ({ st with manifest := m2 }, none)
      else savePageStore st i now ems title contentHash
    | none => savePageStore st i now ems title contentHash

/-- State seen by a file-write worker: the shared manifest and the
cumulative bytes-written counter. -/
structure WorkerState where
  manifest : CrawlManifest
  bytesWritten : Int
deriving DecidableEq

/-- Embedding of one loop iteration of `fileWriteWorker` (`part_001`).
`writeOk` is the outcome of `os.WriteFile`: on failure the error is
logged and the loop continues with the next task, on success the
attached page record (if any) is added to the manifest and the byte
counter is advanced. -/
def processWriteTask (ws : WorkerState) (writeOk : Bool) (t : WriteTask) : WorkerState :=
  if writeOk then
    { manifest :=
        match t.pageInfo with
        | some p => addPage ws.manifest p
        | none => ws.manifest,
      bytesWritten := ws.bytesWritten + (t.content.utf8ByteSize : Int) }
  else ws

/-! ## Claim C1: `AddPage` counting invariants -/

/-- Sum of the three per-outcome counters of a statistics record. -/
def outcomeSum (s : CrawlStatistics) : Int :=
  s.successfulPages + s.failedPages + s.skippedPages

/-- Predicate for a page record whose status is one of the three
outcomes that `AddPage` counts. -/
def countedStatus (i : PageInfo) : Bool :=
  i.status == "completed" || i.status == "failed" || i.status == "skipped"

/-- Page record used by the C1 counterexample: a skipped record added
twice under the same URL. -/
def pageC1 : PageInfo :=
  { emptyPageInfo with url := "https://example.test/a", status := "skipped" }

/-- Fresh manifest used by the C1 counterexample. -/
def manifestC1 : CrawlManifest :=
  newManifest "https://example.test" "example.test" "out" 0 emptyConfig

/-! ## Claim C7: `GetProgress` -/

/-- Queue entry used by the C7 counterexample. -/
def queueItemC7 : QueueItem :=
  { url := "https://example.test/q", parentURL := "", depth := 0, priority := 0,
    addedAt := 0 }

/-- Manifest used by the C7 counterexample: max-pages 1, two counted
pages, three queued URLs. -/
def manifestC7 : CrawlManifest :=
  let m0 := newManifest "https://example.test" "example.test" "out" 0
    { emptyConfig with maxPages := 1 }
  { m0 with
    statistics := { m0.statistics with totalPages := 2 },
    queue := [queueItemC7, queueItemC7, queueItemC7] }

/-! ## Claim C6: `LoadManifest` / resume error cases -/

/-- A loaded session whose status is already `"completed"`, used to show
that `LoadManifest` does not reject it. -/
def manifestC6 : CrawlManifest :=
  let m0 := newManifest "https://example.test" "example.test" "out" 0 emptyConfig
  { m0 with metadata := { m0.metadata with status := "completed" } }

/-! ## Claim C4: `Save` write-temp-then-rename atomicity -/

/-- Manifest used by the C4 witness. -/
def manifestC4 : CrawlManifest :=
  newManifest "https://example.test" "example.test" "out" 0 emptyConfig

/-! ## Claim C9: statistics across resume and completion -/

/-- Manifest used by the C9 counterexample (fresh session started at
time zero). -/
def manifestC9 : CrawlManifest :=
  newManifest "https://example.test" "example.test" "out" 0 emptyConfig

/-! ## Claim C5: failed file writes in the worker -/

/-- Page record attached to the C5 write task (a completed page, as
`savePage` builds them). -/
def pageC5 : PageInfo :=
  { emptyPageInfo with
    url := "https://example.test/a",
    title := "A",
    status := "completed" }

/-- Write task used by the C5 witness and counterexample. -/
def taskC5 : WriteTask :=
  { filePath := "out/a.md", content := "# A\n\nSource: https://example.test/a",
    pageInfo := some pageC5 }

/-- Worker state used by the C5 witness and counterexample. -/
def workerC5 : WorkerState :=
  { manifest := newManifest "https://example.test" "example.test" "out" 0 emptyConfig,
    bytesWritten := 0 }

/-- Content of 500 identical bytes, above the duplicate-exemption
threshold. -/
def longContent : String :=
  String.mk (List.replicate 500 'a')

/-- Pre-resume completed page record carrying the hash of
`longContent`. -/
def pageC2 : PageInfo :=
  { emptyPageInfo with
    url := "https://example.test/a",
    title := "A",
    contentHash := calculateContentHash longContent,
    status := "completed" }

/-- Pre-resume session: a running manifest that already recorded
`pageC2` as completed. -/
def priorManifestC2 : CrawlManifest :=
  let m0 := newManifest "https://example.test" "example.test" "out" 0 emptyConfig
  { m0 with pages := [("https://example.test/a", pageC2)] }

/-- File system holding the persisted pre-resume session. -/
def fsC2 : FS :=
  [(manifestPathOf "out", encodeManifest priorManifestC2)]

/-- Fresh manifest that `NewCrawler` would build when not resuming. -/
def freshManifestC2 : CrawlManifest :=
  newManifest "https://example.test" "example.test" "out" 9 emptyConfig

/-- Page input whose cleaned content equals the pre-resume completed
page's content (same hash, length 500 ≥ the duplicate threshold). -/
def inputC2 : SavePageInput :=
  { url := "https://example.test/b", urlPath := "/b", title := "B",
    statusCode := 200, contentType := "text/html", cleanedContent := longContent,
    linksFound := [] }

/-- Completed page already in the session used by the C3 witness. -/
def pageC3 : PageInfo :=
  { emptyPageInfo with
    url := "https://example.test/a",
    title := "A",
    contentHash := calculateContentHash longContent,
    status := "completed" }

/-- Session used by the C3 witness: `pageC3` completed earlier. -/
def manifestC3 : CrawlManifest :=
  let m0 := newManifest "https://example.test" "example.test" "out" 0 emptyConfig
  { m0 with pages := [("https://example.test/a", pageC3)] }

/-- Crawler state used by the C3 witness: the earlier page's hash is in
the content cache. -/
def stC3 : CrawlerState :=
  { manifest := manifestC3,
    contentCache := [(calculateContentHash longContent, "https://example.test/a")],
    urlBloom := ["https://example.test/a"], pageCount := 1, outputDir := "out" }

/-- Second URL submitting the same 500-byte content. -/
def inputC3 : SavePageInput :=
  { url := "https://example.test/b", urlPath := "/b", title := "B",
    statusCode := 200, contentType := "text/html", cleanedContent := longContent,
    linksFound := [] }

/-- Content of 150 bytes, valid but below the duplicate threshold. -/
def shortContent : String :=
  String.mk (List.replicate 150 'b')

/-- A short page input used by the C3 witness. -/
def inputC3s : SavePageInput :=
  { url := "https://example.test/c", urlPath := "/c", title := "C",
    statusCode := 200, contentType := "text/html", cleanedContent := shortContent,
    linksFound := [] }

/-! ## Claim C10: `slugify` always yields a safe nonempty name -/

/-- The character list that `slugify` builds in its main branch (trim
slashes, slashes to hyphens, sanitize, collapse hyphen runs, trim
hyphens). -/
def slugChars (path : String) : List Char :=
  trimChar '-' (collapseHyphens
    (((trimChar '/' path.data).map (fun c => if c == '/' then '-' else c)).map
      (fun c => if isSlugSafeChar c then c else '-')))

/-! ## Theorems -/

theorem natDigitsRevAux_fuel (n : Nat) : ∀ f1 f2 : Nat, n ≤ f1 → n ≤ f2 →
    natDigitsRevAux f1 n = natDigitsRevAux f2 n := by
  induction n using Nat.strong_induction_on with
  | _ n ih =>
    intro f1 f2 h1 h2
    match f1, f2 with
    | 0, 0 => rfl
    | 0, f2 + 1 =>
      have h0 : n = 0 := Nat.le_zero.mp h1
      subst h0
      simp [natDigitsRevAux]
    | f1 + 1, 0 =>
      have h0 : n = 0 := Nat.le_zero.mp h2
      subst h0
      simp [natDigitsRevAux]
    | f1 + 1, f2 + 1 =>
      by_cases h : n = 0
      · subst h
        simp [natDigitsRevAux]
      · have hlt : n / 10 < n := Nat.div_lt_self (Nat.pos_of_ne_zero h) (by norm_num)
        simp only [natDigitsRevAux, if_neg h]
        rw [ih (n / 10) hlt f1 f2 (by omega) (by omega)]

theorem natDigitsRev_eq (n : Nat) :
    natDigitsRev n =
      if n = 0 then [] else Char.ofNat (48 + n % 10) :: natDigitsRev (n / 10) := by
  by_cases h : n = 0
  · subst h
    rfl
  · obtain ⟨k, rfl⟩ : ∃ k, n = k + 1 := ⟨n - 1, by omega⟩
    rw [if_neg h]
    show natDigitsRevAux (k + 1) (k + 1) = _
    simp only [natDigitsRevAux, if_neg h]
    rw [natDigitsRevAux_fuel ((k + 1) / 10) k ((k + 1) / 10) (by omega) (le_refl _)]
    rfl

theorem digitVal_ofNat (r : Nat) (h : r < 10) :
    digitVal (Char.ofNat (48 + r)) = some r := by
  interval_cases r <;> decide

theorem ofNat_digit_bounds (r : Nat) (h : r < 10) :
    48 ≤ (Char.ofNat (48 + r)).toNat ∧ (Char.ofNat (48 + r)).toNat ≤ 57 := by
  interval_cases r <;> decide

theorem parseNatAux_append (l₁ l₂ : List Char) (acc : Nat) :
    parseNatAux acc (l₁ ++ l₂) =
      match parseNatAux acc l₁ with
      | none => none
      | some a => parseNatAux a l₂ := by
  induction l₁ generalizing acc with
  | nil => rfl
  | cons c rest ih =>
    simp only [List.cons_append, parseNatAux]
    cases digitVal c with
    | none => rfl
    | some d => exact ih _

theorem parseNatAux_digits (n : Nat) :
    ∀ acc, parseNatAux acc (natDigitsRev n).reverse =
      some (acc * 10 ^ (natDigitsRev n).length + n) := by
  induction n using Nat.strong_induction_on with
  | _ n ih =>
    intro acc
    by_cases h : n = 0
    · subst h
      simp [natDigitsRev, natDigitsRevAux, parseNatAux]
    · rw [natDigitsRev_eq, if_neg h]
      rw [List.reverse_cons, parseNatAux_append]
      rw [ih (n / 10) (Nat.div_lt_self (Nat.pos_of_ne_zero h) (by norm_num)) acc]
      have hr : n % 10 < 10 := Nat.mod_lt _ (by norm_num)
      simp only [parseNatAux, digitVal_ofNat _ hr, List.length_cons]
      have hdm : 10 * (n / 10) + n % 10 = n := Nat.div_add_mod n 10
      congr 1
      rw [pow_succ]
      generalize n / 10 = q at hdm ⊢
      generalize n % 10 = r at hdm ⊢
      rw [← hdm]
      ring

theorem natDigitsRev_ne_nil (n : Nat) (h : n ≠ 0) : natDigitsRev n ≠ [] := by
  rw [natDigitsRev_eq, if_neg h]
  simp

theorem mem_natDigitsRev_digit (n : Nat) :
    ∀ c ∈ natDigitsRev n, 48 ≤ c.toNat ∧ c.toNat ≤ 57 := by
  induction n using Nat.strong_induction_on with
  | _ n ih =>
    intro c hc
    by_cases h : n = 0
    · subst h
      simp [natDigitsRev, natDigitsRevAux] at hc
    · rw [natDigitsRev_eq, if_neg h] at hc
      rcases List.mem_cons.mp hc with h1 | h2
      · subst h1
        exact ofNat_digit_bounds _ (Nat.mod_lt _ (by norm_num))
      · exact ih (n / 10) (Nat.div_lt_self (Nat.pos_of_ne_zero h) (by norm_num)) c h2

theorem parseNatChars_natToString (n : Nat) :
    parseNatChars (natToString n).data = some n := by
  by_cases h : n = 0
  · subst h
    decide
  · rw [natToString, if_neg h]
    have hne : (natDigitsRev n).reverse ≠ [] := by
      simp [natDigitsRev_ne_nil n h]
    obtain ⟨c, rest, hcr⟩ := List.exists_cons_of_ne_nil hne
    show parseNatChars (natDigitsRev n).reverse = some n
    rw [hcr, parseNatChars, ← hcr]
    have := parseNatAux_digits n 0
    simpa using this

theorem head_natToString_digit (n : Nat) (c : Char) (rest : List Char)
    (h : (natToString n).data = c :: rest) : 48 ≤ c.toNat ∧ c.toNat ≤ 57 := by
  by_cases h0 : n = 0
  · subst h0
    have : c = '0' := by
      have : (natToString 0).data = ['0'] := by decide
      rw [this] at h
      exact (List.cons.injEq _ _ _ _ ▸ h).1.symm ▸ rfl
    subst this
    decide
  · rw [natToString, if_neg h0] at h
    have hc : c ∈ (natDigitsRev n).reverse := by
      show c ∈ (String.mk (natDigitsRev n).reverse).data
      rw [h]
      exact List.mem_cons_self _ _
    exact mem_natDigitsRev_digit n c (List.mem_reverse.mp hc)

theorem natToString_ne_nil (n : Nat) : (natToString n).data ≠ [] := by
  by_cases h : n = 0
  · subst h
    decide
  · rw [natToString, if_neg h]
    simp [natDigitsRev_ne_nil n h]

theorem parseInt_intToString (i : Int) : parseInt (intToString i) = some i := by
  by_cases h : i < 0
  · rw [intToString, if_pos h, parseInt]
    have hdata : ("-" ++ natToString i.natAbs).data = '-' :: (natToString i.natAbs).data := by
      simp [String.data_append]
    rw [hdata, parseIntChars, if_pos rfl, parseNatChars_natToString]
    simp only [Option.map_some']
    congr 1
    omega
  · rw [intToString, if_neg h, parseInt]
    obtain ⟨c, rest, hcr⟩ := List.exists_cons_of_ne_nil (natToString_ne_nil i.toNat)
    rw [hcr, parseIntChars]
    have hdig := head_natToString_digit i.toNat c rest hcr
    rw [if_neg (show c ≠ '-' by intro heq; rw [heq] at hdig; revert hdig; decide)]
    rw [← hcr, parseNatChars_natToString]
    simp only [Option.map_some']
    congr 1
    omega

theorem lookupAssoc_setAssoc_self {α : Type} (l : List (String × α)) (k : String) (v : α) :
    lookupAssoc (setAssoc l k v) k = some v := by
  induction l with
  | nil => simp [setAssoc, lookupAssoc]
  | cons p rest ih =>
    obtain ⟨k', v'⟩ := p
    by_cases h : k' = k
    · simp [setAssoc, lookupAssoc, h]
    · simp [setAssoc, lookupAssoc, h, ih]

theorem lookupAssoc_setAssoc_ne {α : Type} (l : List (String × α)) (k k' : String) (v : α)
    (h : k ≠ k') : lookupAssoc (setAssoc l k v) k' = lookupAssoc l k' := by
  induction l with
  | nil => simp [setAssoc, lookupAssoc, h]
  | cons p rest ih =>
    obtain ⟨k₀, v₀⟩ := p
    by_cases h0 : k₀ = k
    · subst h0
      simp [setAssoc, lookupAssoc, h]
    · simp only [setAssoc, if_neg h0]
      by_cases h1 : k₀ = k'
      · simp [lookupAssoc, h1]
      · simp [lookupAssoc, h1, ih]

theorem lookupAssoc_removeAssoc_ne {α : Type} (l : List (String × α)) (k k' : String)
    (h : k ≠ k') : lookupAssoc (removeAssoc l k) k' = lookupAssoc l k' := by
  induction l with
  | nil => simp [removeAssoc]
  | cons p rest ih =>
    obtain ⟨k₀, v₀⟩ := p
    by_cases h0 : k₀ = k
    · subst h0
      rw [removeAssoc, if_pos rfl, ih, lookupAssoc, if_neg h]
    · rw [removeAssoc, if_neg h0, lookupAssoc, lookupAssoc]
      by_cases h1 : k₀ = k'
      · rw [if_pos h1, if_pos h1]
      · rw [if_neg h1, if_neg h1, ih]

/-! ## Round-trip lemmas for the JSON codec -/

theorem jInt?_intCast (i : Int) : jInt? (.num (i : Rat)) = some i := by
  simp [jInt?]

theorem jTime?_encodeTime (t : Int) : jTime? (encodeTime t) = some t := by
  simp [jTime?, encodeTime, parseInt_intToString]

theorem mapMOpt_map {α β : Type} (f : α → β) (g : β → Option α) (l : List α)
    (h : ∀ a ∈ l, g (f a) = some a) : mapMOpt g (l.map f) = some l := by
  induction l with
  | nil => rfl
  | cons a rest ih =>
    simp only [List.map_cons, mapMOpt, h a (List.mem_cons_self a rest)]
    rw [ih (fun b hb => h b (List.mem_cons_of_mem a hb))]
    rfl

theorem decodeStrList_encodeStrList (l : List String) :
    decodeStrList (encodeStrList l) = some l := by
  rw [encodeStrList, decodeStrList, mapMOpt_map]
  intro a _
  rfl

theorem decodeStrMap_encodeStrMap (l : List (String × String)) :
    decodeStrMap (encodeStrMap l) = some l := by
  rw [encodeStrMap, decodeStrMap, mapMOpt_map]
  intro a _
  rfl

theorem decodeCountMapS_encodeCountMapS (l : List (String × Int)) :
    decodeCountMapS (encodeCountMapS l) = some l := by
  rw [encodeCountMapS, decodeCountMapS, mapMOpt_map]
  intro a _
  simp [jInt?_intCast]

theorem decodeCountMapI_encodeCountMapI (l : List (Int × Int)) :
    decodeCountMapI (encodeCountMapI l) = some l := by
  rw [encodeCountMapI, decodeCountMapI, mapMOpt_map]
  intro a _
  simp [jInt?_intCast, parseInt_intToString]

theorem decodeProcessingTimes_encodeProcessingTimes (pt : ProcessingTimeStats) :
    decodeProcessingTimes (encodeProcessingTimes pt) = some pt := by
  simp [decodeProcessingTimes, encodeProcessingTimes, jObj?, getField, lookupAssoc,
    jInt?_intCast, jNum?]

theorem decodeMetadata_encodeMetadata (md : CrawlMetadata) :
    decodeMetadata (encodeMetadata md) = some md := by
  simp [decodeMetadata, encodeMetadata, jObj?, getField, lookupAssoc, jStr?,
    jTime?_encodeTime]

set_option maxHeartbeats 2000000 in
theorem decodePageInfo_encodePageInfo (p : PageInfo) :
    decodePageInfo (encodePageInfo p) = some p := by
  rcases p with ⟨url, title, contentHash, fileSize, fileName, crawledAt, lastModified,
    responseCode, contentType, processingTime, linksFound, extractedLinks, parentURL,
    depth, status, errorMessage, metadata⟩
  by_cases h1 : parentURL = "" <;> by_cases h2 : errorMessage = "" <;>
    by_cases h3 : metadata = ([] : List (String × String)) <;>
    simp [decodePageInfo, encodePageInfo, optStrField, h1, h2, h3, jObj?, getField,
      lookupAssoc, jStr?, jInt?_intCast, jTime?_encodeTime, decodeStrList_encodeStrList,
      decodeStrMap_encodeStrMap]

set_option maxHeartbeats 1000000 in
theorem decodeQueueItem_encodeQueueItem (q : QueueItem) :
    decodeQueueItem (encodeQueueItem q) = some q := by
  simp [decodeQueueItem, encodeQueueItem, jObj?, getField, lookupAssoc, jStr?,
    jInt?_intCast, jTime?_encodeTime]

set_option maxHeartbeats 1000000 in
theorem decodeConfig_encodeConfig (c : CrawlConfig) :
    decodeConfig (encodeConfig c) = some c := by
  simp [decodeConfig, encodeConfig, jObj?, getField, lookupAssoc, jStr?, jBool?,
    jInt?_intCast]

set_option maxHeartbeats 2000000 in
theorem decodeStatistics_encodeStatistics (s : CrawlStatistics) :
    decodeStatistics (encodeStatistics s) = some s := by
  simp [decodeStatistics, encodeStatistics, jObj?, getField, lookupAssoc, jStr?, jNum?,
    jInt?_intCast, decodeCountMapS_encodeCountMapS, decodeCountMapI_encodeCountMapI,
    decodeProcessingTimes_encodeProcessingTimes]

theorem decodePages_encodePages (pages : List (String × PageInfo)) :
    decodePages (encodePages pages) = some pages := by
  rw [encodePages, decodePages, mapMOpt_map]
  intro a _
  rw [decodePageInfo_encodePageInfo]
  rfl

theorem decodeQueue_encodeQueue (queue : List QueueItem) :
    decodeQueue (encodeQueue queue) = some queue := by
  rw [encodeQueue, decodeQueue, mapMOpt_map]
  intro a _
  exact decodeQueueItem_encodeQueueItem a

set_option maxHeartbeats 2000000 in
theorem decodeManifest_encodeManifest (m : CrawlManifest) :
    decodeManifest (encodeManifest m) = some m := by
  simp [decodeManifest, encodeManifest, jObj?, getField, lookupAssoc, jStr?,
    decodeMetadata_encodeMetadata, decodePages_encodePages, decodeQueue_encodeQueue,
    decodeStatistics_encodeStatistics, decodeConfig_encodeConfig]

theorem addPage_totalPages (m : CrawlManifest) (i : PageInfo) :
    (addPage m i).statistics.totalPages = m.statistics.totalPages + 1 := by
  by_cases h1 : i.status = "completed" <;> by_cases h2 : i.status = "failed" <;>
    by_cases h3 : i.status = "skipped" <;> simp [addPage, h1, h2, h3]

theorem addPage_outcomeSum (m : CrawlManifest) (i : PageInfo) :
    outcomeSum (addPage m i).statistics =
      outcomeSum m.statistics + (if countedStatus i then 1 else 0) := by
  by_cases h1 : i.status = "completed" <;> by_cases h2 : i.status = "failed" <;>
    by_cases h3 : i.status = "skipped" <;>
    simp [addPage, outcomeSum, countedStatus, h1, h2, h3] <;> ring

theorem foldl_addPage_totalPages (infos : List PageInfo) :
    ∀ m : CrawlManifest, (infos.foldl addPage m).statistics.totalPages =
      m.statistics.totalPages + (infos.length : Int) := by
  induction infos with
  | nil => intro m; simp
  | cons i rest ih =>
    intro m
    rw [List.foldl_cons, ih (addPage m i), addPage_totalPages]
    simp only [List.length_cons]
    push_cast
    ring

theorem foldl_addPage_outcomeSum (infos : List PageInfo) :
    ∀ m : CrawlManifest, outcomeSum (infos.foldl addPage m).statistics =
      outcomeSum m.statistics + (infos.countP countedStatus : Int) := by
  induction infos with
  | nil => intro m; simp
  | cons i rest ih =>
    intro m
    rw [List.foldl_cons, ih (addPage m i), addPage_outcomeSum, List.countP_cons]
    by_cases h : countedStatus i <;> simp [h] <;> push_cast <;> omega

/-- C1 (amended): for every sequence of `AddPage` calls on a fresh
manifest, `Statistics.TotalPages` equals the number of calls (not the
number of distinct URLs in the `Pages` map: a repeated URL overwrites
its map entry but still increments the counter), and
`SuccessfulPages + FailedPages + SkippedPages` equals the number of
calls whose `Status` is one of `"completed"`, `"failed"`, `"skipped"`
(a record with any other status is counted in `TotalPages` only). -/
theorem addPage_counts_spec (infos : List PageInfo)
    (baseURL domain outputDir : String) (now : Int) (cfg : CrawlConfig) :
    (infos.foldl addPage (newManifest baseURL domain outputDir now cfg)).statistics.totalPages
        = (infos.length : Int) ∧
    outcomeSum (infos.foldl addPage
        (newManifest baseURL domain outputDir now cfg)).statistics
        = (infos.countP countedStatus : Int) := by
  constructor
  · rw [foldl_addPage_totalPages]
    simp [newManifest, emptyStatistics]
  · rw [foldl_addPage_outcomeSum]
    simp [newManifest, outcomeSum, emptyStatistics]

/-- C1 (counterexample): adding the same URL twice to a fresh manifest
makes `TotalPages` equal 2 while the `Pages` map holds a single
distinct URL, refuting the claim that `TotalPages` always equals the
number of distinct URLs in the map. -/
theorem addPage_counts_claim_cex :
    ¬ (([pageC1, pageC1].foldl addPage manifestC1).statistics.totalPages =
        ((([pageC1, pageC1].foldl addPage manifestC1).pages.map Prod.fst).dedup.length : Int) ∧
       outcomeSum ([pageC1, pageC1].foldl addPage manifestC1).statistics =
        ([pageC1, pageC1].foldl addPage manifestC1).statistics.totalPages) := by
  decide

/-- C7 (amended): `GetProgress` returns `completed = Statistics.TotalPages`;
`total` is the configured max-pages whenever that is nonzero and only
falls back to `completed` plus the pending-queue length when max-pages
is zero (it is not the greater of the two); and `percent` is
`completed / total * 100` when `total` is positive, zero otherwise. -/
theorem getProgress_spec (m : CrawlManifest) :
    (getProgress m).1 = m.statistics.totalPages ∧
    (getProgress m).2.1 =
      (if m.config.maxPages = 0 then m.statistics.totalPages + (m.queue.length : Int)
       else m.config.maxPages) ∧
    (getProgress m).2.2 =
      (if 0 < (getProgress m).2.1
       then (m.statistics.totalPages : Rat) / ((getProgress m).2.1 : Rat) * 100 else 0) := by
  refine ⟨rfl, rfl, ?_⟩
  by_cases h : (0 : Int) < (getProgress m).2.1 <;> simp [getProgress] at h ⊢ <;>
    simp [h]

/-- C7 (counterexample): with max-pages 1, two completed pages and three
queued URLs, the code returns `total = 1` while the claimed formula
`max(max-pages, completed + queue length)` gives 5. -/
theorem getProgress_total_claim_cex :
    (getProgress manifestC7).2.1 ≠
      max manifestC7.config.maxPages
        (manifestC7.statistics.totalPages + (manifestC7.queue.length : Int)) := by
  decide

/-- C6 (amended): the resume load fails with a distinct error kind in
exactly two cases: `openFailed` when no manifest file exists at the
output location and `decodeFailed` when the stored document does not
decode; in every other case it returns the loaded session, with no
check of the session status (a `"completed"` session loads without
error). -/
theorem loadManifest_error_spec (fs : FS) (dir : String) :
    (lookupAssoc fs (manifestPathOf dir) = none →
      loadManifest fs dir = .error .openFailed) ∧
    (∀ j, lookupAssoc fs (manifestPathOf dir) = some j → decodeManifest j = none →
      loadManifest fs dir = .error .decodeFailed) ∧
    (∀ j m, lookupAssoc fs (manifestPathOf dir) = some j → decodeManifest j = some m →
      loadManifest fs dir = .ok m) := by
  refine ⟨fun h => ?_, fun j h1 h2 => ?_, fun j m h1 h2 => ?_⟩
  · simp [loadManifest, h]
  · simp [loadManifest, h1, h2]
  · simp [loadManifest, h1, h2]

/-- C6 (witness): the three cases of `loadManifest_error_spec` at
concrete inputs: an empty file system, a stored document the decoder
rejects, and a stored session whose status is `"completed"`. -/
theorem loadManifest_error_spec_witness :
    loadManifest [] "out" = .error .openFailed ∧
    loadManifest [(manifestPathOf "out", Json.null)] "out" = .error .decodeFailed ∧
    loadManifest [(manifestPathOf "out", encodeManifest manifestC6)] "out" =
      .ok manifestC6 :=
  ⟨(loadManifest_error_spec [] "out").1 rfl,
   (loadManifest_error_spec [(manifestPathOf "out", Json.null)] "out").2.1
     Json.null rfl rfl,
   (loadManifest_error_spec [(manifestPathOf "out", encodeManifest manifestC6)] "out").2.2
     (encodeManifest manifestC6) manifestC6 rfl (decodeManifest_encodeManifest manifestC6)⟩

/-- C6 (counterexample): a well-formed manifest whose session status is
already `"completed"` is loaded successfully, refuting the claim that
this case fails with a distinct error kind. -/
theorem loadManifest_completed_claim_cex :
    loadManifest [(manifestPathOf "out", encodeManifest manifestC6)] "out" =
      .ok manifestC6 ∧
    manifestC6.metadata.status = "completed" := by
  constructor
  · simp [loadManifest, lookupAssoc, decodeManifest_encodeManifest]
  · rfl

/-- C4 (confirmed): whatever step `Save` fails at, the canonical
`crawl-manifest.json` entry is exactly what it was before the call,
and in every execution (faulty or not) the canonical entry is either
its previous value or the complete encoding of the freshly updated
manifest — a partially written manifest is never visible under the
canonical name.  On success the canonical entry is the complete
encoding. -/
theorem save_atomicity (fs : FS) (dir : String) (m : CrawlManifest) (now : Int)
    (fault : Option SaveStepFailure) :
    ((saveManifest fs dir m now fault).2 ≠ .ok () →
      lookupAssoc (saveManifest fs dir m now fault).1 (manifestPathOf dir) =
        lookupAssoc fs (manifestPathOf dir)) ∧
    ((saveManifest fs dir m now fault).2 = .ok () →
      lookupAssoc (saveManifest fs dir m now fault).1 (manifestPathOf dir) =
        some (encodeManifest (updateStatistics now m))) ∧
    (lookupAssoc (saveManifest fs dir m now fault).1 (manifestPathOf dir) =
        lookupAssoc fs (manifestPathOf dir) ∨
     lookupAssoc (saveManifest fs dir m now fault).1 (manifestPathOf dir) =
        some (encodeManifest (updateStatistics now m))) := by
  have hne : manifestPathOf dir ++ ".tmp" ≠ manifestPathOf dir := by
    intro h
    have hl := congrArg String.length h
    rw [String.length_append] at hl
    have h4 : (".tmp" : String).length = 4 := rfl
    omega
  rcases fault with _ | f
  · refine ⟨fun h => absurd rfl h, fun _ => ?_, Or.inr ?_⟩ <;>
      simp [saveManifest, lookupAssoc_setAssoc_self]
  · cases f
    all_goals refine ⟨fun _ => ?_, fun h => ?_, Or.inl ?_⟩
    all_goals try simp [saveManifest, lookupAssoc_setAssoc_ne _ _ _ _ hne]
    all_goals simp [saveManifest] at h

/-- C4 (witness): `save_atomicity` applied at a concrete failing rename
and at a concrete successful save. -/
theorem save_atomicity_witness :
    (lookupAssoc (saveManifest [] "out" manifestC4 5 (some .renameFailed)).1
        (manifestPathOf "out") = lookupAssoc ([] : FS) (manifestPathOf "out")) ∧
    (lookupAssoc (saveManifest [] "out" manifestC4 5 none).1 (manifestPathOf "out") =
      some (encodeManifest (updateStatistics 5 manifestC4))) :=
  ⟨(save_atomicity [] "out" manifestC4 5 (some .renameFailed)).1 (fun h => nomatch h),
   (save_atomicity [] "out" manifestC4 5 none).2.1 rfl⟩

/-! ## Claim C8: `Save` then `LoadManifest` round trip -/

theorem loadManifest_saveManifest (fs : FS) (dir : String) (m : CrawlManifest)
    (now : Int) :
    loadManifest (saveManifest fs dir m now none).1 dir =
      .ok (updateStatistics now m) := by
  have h1 : lookupAssoc (saveManifest fs dir m now none).1 (manifestPathOf dir) =
      some (encodeManifest (updateStatistics now m)) := by
    simp [saveManifest, lookupAssoc_setAssoc_self]
  simp [loadManifest, h1, decodeManifest_encodeManifest]

/-- C8 (confirmed): for every manifest and file system, `Save` followed
by `LoadManifest` on the produced file yields exactly the manifest that
was serialized (the manifest after the statistics update that `Save`
performs), so the loaded session metadata, URL-to-PageRecord mapping,
queue and statistics all equal those of the saved manifest. -/
theorem save_load_roundtrip (fs : FS) (dir : String) (m : CrawlManifest) (now : Int) :
    loadManifest (saveManifest fs dir m now none).1 dir =
      .ok (updateStatistics now m) :=
  loadManifest_saveManifest fs dir m now

theorem updateStatistics_totalPages (now : Int) (m : CrawlManifest) :
    (updateStatistics now m).statistics.totalPages = m.statistics.totalPages := by
  simp only [updateStatistics]
  split_ifs <;> rfl

theorem updateStatistics_successfulPages (now : Int) (m : CrawlManifest) :
    (updateStatistics now m).statistics.successfulPages =
      m.statistics.successfulPages := by
  simp only [updateStatistics]
  split_ifs <;> rfl

theorem updateStatistics_failedPages (now : Int) (m : CrawlManifest) :
    (updateStatistics now m).statistics.failedPages = m.statistics.failedPages := by
  simp only [updateStatistics]
  split_ifs <;> rfl

theorem updateStatistics_skippedPages (now : Int) (m : CrawlManifest) :
    (updateStatistics now m).statistics.skippedPages = m.statistics.skippedPages := by
  simp only [updateStatistics]
  split_ifs <;> rfl

theorem updateStatistics_duplicatePages (now : Int) (m : CrawlManifest) :
    (updateStatistics now m).statistics.duplicatePages =
      m.statistics.duplicatePages := by
  simp only [updateStatistics]
  split_ifs <;> rfl

theorem updateStatistics_totalBytes (now : Int) (m : CrawlManifest) :
    (updateStatistics now m).statistics.totalBytes = m.statistics.totalBytes := by
  simp only [updateStatistics]
  split_ifs <;> rfl

theorem updateStatistics_errorTypes (now : Int) (m : CrawlManifest) :
    (updateStatistics now m).statistics.errorTypes = m.statistics.errorTypes := by
  simp only [updateStatistics]
  split_ifs <;> rfl

theorem updateStatistics_statusCodes (now : Int) (m : CrawlManifest) :
    (updateStatistics now m).statistics.statusCodes = m.statistics.statusCodes := by
  simp only [updateStatistics]
  split_ifs <;> rfl

theorem updateStatistics_contentTypes (now : Int) (m : CrawlManifest) :
    (updateStatistics now m).statistics.contentTypes = m.statistics.contentTypes := by
  simp only [updateStatistics]
  split_ifs <;> rfl

theorem updateStatistics_processingTimes (now : Int) (m : CrawlManifest) :
    (updateStatistics now m).statistics.processingTimes =
      m.statistics.processingTimes := by
  simp only [updateStatistics]
  split_ifs <;> rfl

theorem updateStatistics_metadata (now : Int) (m : CrawlManifest) :
    (updateStatistics now m).metadata = m.metadata := rfl

theorem updateStatistics_crawlDuration (now : Int) (m : CrawlManifest) :
    (updateStatistics now m).statistics.crawlDuration =
      intToString (now - m.metadata.startTime) := by
  simp only [updateStatistics]
  split_ifs <;> rfl

theorem updateStatistics_averagePageSize (now : Int) (m : CrawlManifest) :
    (updateStatistics now m).statistics.averagePageSize =
      (if 0 < m.statistics.successfulPages
       then Int.tdiv m.statistics.totalBytes m.statistics.successfulPages
       else m.statistics.averagePageSize) := by
  simp only [updateStatistics]
  split_ifs <;> rfl

/-- C9 (amended): resuming a saved session (load of a successful save
returns the updated manifest unchanged) and completing it without
adding any page record preserves every count-derived statistics field:
TotalPages, SuccessfulPages, FailedPages, SkippedPages, DuplicatePages,
TotalBytes, AveragePageSize, the three breakdown maps and the
processing-time aggregates.  `CrawlDuration` however (and with it
PagesPerSecond and BytesPerSecond) is recomputed from the time elapsed
since the session start, so the persisted statistics equal the
pre-resume snapshot only in the preserved fields, not as a whole. -/
theorem resume_complete_stats_spec (fs : FS) (dir : String) (m : CrawlManifest)
    (t1 t2 t3 : Int) :
    loadManifest (saveManifest fs dir m t1 none).1 dir = .ok (updateStatistics t1 m) ∧
    ((updateStatistics t3 (completeManifest t2
          (updateStatistics t1 m))).statistics.totalPages =
        (updateStatistics t1 m).statistics.totalPages ∧
     (updateStatistics t3 (completeManifest t2
          (updateStatistics t1 m))).statistics.successfulPages =
        (updateStatistics t1 m).statistics.successfulPages ∧
     (updateStatistics t3 (completeManifest t2
          (updateStatistics t1 m))).statistics.failedPages =
        (updateStatistics t1 m).statistics.failedPages ∧
     (updateStatistics t3 (completeManifest t2
          (updateStatistics t1 m))).statistics.skippedPages =
        (updateStatistics t1 m).statistics.skippedPages ∧
     (updateStatistics t3 (completeManifest t2
          (updateStatistics t1 m))).statistics.duplicatePages =
        (updateStatistics t1 m).statistics.duplicatePages ∧
     (updateStatistics t3 (completeManifest t2
          (updateStatistics t1 m))).statistics.totalBytes =
        (updateStatistics t1 m).statistics.totalBytes ∧
     (updateStatistics t3 (completeManifest t2
          (updateStatistics t1 m))).statistics.averagePageSize =
        (updateStatistics t1 m).statistics.averagePageSize ∧
     (updateStatistics t3 (completeManifest t2
          (updateStatistics t1 m))).statistics.errorTypes =
        (updateStatistics t1 m).statistics.errorTypes ∧
     (updateStatistics t3 (completeManifest t2
          (updateStatistics t1 m))).statistics.statusCodes =
        (updateStatistics t1 m).statistics.statusCodes ∧
     (updateStatistics t3 (completeManifest t2
          (updateStatistics t1 m))).statistics.contentTypes =
        (updateStatistics t1 m).statistics.contentTypes ∧
     (updateStatistics t3 (completeManifest t2
          (updateStatistics t1 m))).statistics.processingTimes =
        (updateStatistics t1 m).statistics.processingTimes ∧
     (updateStatistics t3 (completeManifest t2
          (updateStatistics t1 m))).statistics.crawlDuration =
        intToString (t3 - m.metadata.startTime)) := by
  constructor
  · exact loadManifest_saveManifest fs dir m t1
  simp only [completeManifest]
  refine ⟨?_, ?_, ?_, ?_, ?_, ?_, ?_, ?_, ?_, ?_, ?_, ?_⟩
  · simp only [updateStatistics_totalPages]
  · simp only [updateStatistics_successfulPages]
  · simp only [updateStatistics_failedPages]
  · simp only [updateStatistics_skippedPages]
  · simp only [updateStatistics_duplicatePages]
  · simp only [updateStatistics_totalBytes]
  · simp only [updateStatistics_averagePageSize, updateStatistics_successfulPages,
      updateStatistics_totalBytes]
    by_cases h : 0 < m.statistics.successfulPages <;> simp [h]
  · simp only [updateStatistics_errorTypes]
  · simp only [updateStatistics_statusCodes]
  · simp only [updateStatistics_contentTypes]
  · simp only [updateStatistics_processingTimes]
  · simp only [updateStatistics_crawlDuration, updateStatistics_metadata]

/-- C9 (counterexample): completing a resumed session at a later time
than the pre-resume save recomputes `CrawlDuration`, so the resulting
statistics record differs from the pre-resume snapshot, refuting the
claimed equality of the whole `Statistics`. -/
theorem resume_complete_stats_claim_cex :
    (updateStatistics 2000000000 (completeManifest 2000000000
        (updateStatistics 1000000000 manifestC9))).statistics ≠
      (updateStatistics 1000000000 manifestC9).statistics := by
  intro h
  have hcd := congrArg CrawlStatistics.crawlDuration h
  rw [updateStatistics_crawlDuration, updateStatistics_crawlDuration] at hcd
  revert hcd
  decide

/-- C5 (amended): when a worker's file write fails the task is dropped
without retry and nothing is recorded — the worker state (manifest
included) is exactly unchanged, so the failure is not visible in
`Statistics`; only a successful write records the attached page record
and advances the byte counter. -/
theorem fileWriteWorker_drop_spec (ws : WorkerState) (t : WriteTask) :
    processWriteTask ws false t = ws ∧
    (∀ p, t.pageInfo = some p →
      processWriteTask ws true t =
        { manifest := addPage ws.manifest p,
          bytesWritten := ws.bytesWritten + (t.content.utf8ByteSize : Int) }) := by
  constructor
  · rfl
  · intro p hp
    simp [processWriteTask, hp]

/-- C5 (witness): `fileWriteWorker_drop_spec` at a concrete worker state
and task. -/
theorem fileWriteWorker_drop_spec_witness :
    processWriteTask workerC5 false taskC5 = workerC5 ∧
    processWriteTask workerC5 true taskC5 =
      { manifest := addPage workerC5.manifest pageC5,
        bytesWritten := workerC5.bytesWritten + (taskC5.content.utf8ByteSize : Int) } :=
  ⟨(fileWriteWorker_drop_spec workerC5 taskC5).1,
   (fileWriteWorker_drop_spec workerC5 taskC5).2 pageC5 rfl⟩

/-- C5 (counterexample): after a failed write of a task that carries a
page record, the manifest still has no pages and no failed count — the
record was not recorded with outcome `"failed"` as claimed. -/
theorem fileWriteWorker_failed_claim_cex :
    taskC5.pageInfo = some pageC5 ∧
    processWriteTask workerC5 false taskC5 = workerC5 ∧
    (processWriteTask workerC5 false taskC5).manifest.pages = [] ∧
    (processWriteTask workerC5 false taskC5).manifest.statistics.failedPages = 0 := by
  refine ⟨rfl, rfl, rfl, rfl⟩

/-! ## Claim C2: resume does not rehydrate the fingerprint cache -/

theorem savePage_empty_cache_completed (mf : CrawlManifest) (ub : List String)
    (pc : Int) (od : String) (i : SavePageInput) (now ems : Int)
    (h200 : i.statusCode = 200) (hlen : 100 ≤ i.cleanedContent.utf8ByteSize) :
    ∃ t p, (savePage ⟨mf, [], ub, pc, od⟩ i now ems).2 = some t ∧
      t.pageInfo = some p ∧ p.status = "completed" := by
  have h200' : ¬(i.statusCode ≠ 200) := by simp [h200]
  have hlen' : ¬(i.cleanedContent.utf8ByteSize < 100) := by omega
  rw [savePage, if_neg h200', if_neg hlen']
  exact ⟨_, _, rfl, rfl, rfl⟩

/-- C2 (amended): resuming an existing session restores the loaded
manifest (when its status is `"running"`), but the duplicate-detection
state is not rehydrated: the fresh crawler's exact-match content cache
and probabilistic URL filter are both empty, and consequently a valid
page processed right after the resume is stored as `"completed"` even
if its content duplicates a pre-resume completed page — no replay of
completed PageRecords into the fingerprint cache happens before
callbacks fire. -/
theorem resume_no_rehydration (fs : FS) (dir : String) (fresh : CrawlManifest)
    (i : SavePageInput) (now ems : Int) (h200 : i.statusCode = 200)
    (hlen : 100 ≤ i.cleanedContent.utf8ByteSize) :
    (newCrawlerState fs dir fresh).contentCache = [] ∧
    (newCrawlerState fs dir fresh).urlBloom = [] ∧
    (newCrawlerState fs dir fresh).manifest = resumeManifestChoice fs dir fresh ∧
    ∃ t p, (savePage (newCrawlerState fs dir fresh) i now ems).2 = some t ∧
      t.pageInfo = some p ∧ p.status = "completed" :=
  ⟨rfl, rfl, rfl,
   savePage_empty_cache_completed (resumeManifestChoice fs dir fresh) [] 0 dir i now ems h200 hlen⟩

set_option maxRecDepth 20000 in
/-- C2 (witness): `resume_no_rehydration` applied at a concrete file
system, output directory, fresh manifest and page input. -/
theorem resume_no_rehydration_witness :
    (newCrawlerState fsC2 "out" freshManifestC2).contentCache = [] ∧
    (newCrawlerState fsC2 "out" freshManifestC2).urlBloom = [] ∧
    (newCrawlerState fsC2 "out" freshManifestC2).manifest =
      resumeManifestChoice fsC2 "out" freshManifestC2 ∧
    ∃ t p, (savePage (newCrawlerState fsC2 "out" freshManifestC2) inputC2 7 3).2 =
        some t ∧ t.pageInfo = some p ∧ p.status = "completed" :=
  resume_no_rehydration fsC2 "out" freshManifestC2 inputC2 7 3 rfl (by decide)

set_option maxRecDepth 20000 in
/-- C2 (counterexample): after resuming the persisted session that
completed a page with `longContent`, processing a second URL with the
very same content yields a `"completed"` record, not a duplicate
`"skipped"` one — the fingerprint cache was not rehydrated from the
loaded manifest. -/
theorem resume_rehydration_claim_cex :
    (newCrawlerState fsC2 "out" freshManifestC2).manifest = priorManifestC2 ∧
    pageC2.status = "completed" ∧
    pageC2.contentHash = calculateContentHash inputC2.cleanedContent ∧
    500 ≤ inputC2.cleanedContent.utf8ByteSize ∧
    ∃ t p, (savePage (newCrawlerState fsC2 "out" freshManifestC2) inputC2 7 3).2 =
        some t ∧ t.pageInfo = some p ∧ p.status = "completed" := by
  refine ⟨?_, rfl, rfl, by decide,
    savePage_empty_cache_completed (resumeManifestChoice fsC2 "out" freshManifestC2) [] 0 "out" inputC2 7 3 rfl (by decide)⟩
  show resumeManifestChoice fsC2 "out" freshManifestC2 = priorManifestC2
  rw [resumeManifestChoice]
  have hload : loadManifest fsC2 "out" = .ok priorManifestC2 := by
    simp [loadManifest, fsC2, lookupAssoc, decodeManifest_encodeManifest]
  rw [hload]
  rfl

/-! ## Claim C3: the 500-byte duplicate threshold in `savePage` -/

theorem addPage_pages (m : CrawlManifest) (i : PageInfo) :
    (addPage m i).pages = setAssoc m.pages i.url i := rfl

theorem addPage_duplicatePages (m : CrawlManifest) (i : PageInfo) :
    (addPage m i).statistics.duplicatePages = m.statistics.duplicatePages := by
  by_cases h1 : i.status = "completed" <;> by_cases h2 : i.status = "failed" <;>
    by_cases h3 : i.status = "skipped" <;> simp [addPage, h1, h2, h3]

/-- C3 (confirmed): for a 200-status page with valid cleaned content,
(1) when the cleaned content is at least 500 bytes, its hash is taken
over the content alone, and a cache hit whose original completed page
is still in the manifest records the page as `"skipped"` with an error
message naming the original page's URL (and bumps DuplicatePages);
(2) when the cleaned content is shorter than 500 bytes the page is
never classified as a duplicate — whatever the cache holds it is
stored as `"completed"` (so two distinct short pages both complete) —
and its hash is computed over the URL path and title together with the
content. -/
theorem savePage_duplicate_threshold (st : CrawlerState) (i : SavePageInput)
    (now ems : Int) (h200 : i.statusCode = 200)
    (hvalid : 100 ≤ i.cleanedContent.utf8ByteSize) :
    (∀ cachedURL orig,
        500 ≤ i.cleanedContent.utf8ByteSize →
        lookupAssoc st.contentCache (calculateContentHash i.cleanedContent) =
          some cachedURL →
        getDuplicatePage st.manifest (calculateContentHash i.cleanedContent) =
          some orig →
        (savePage st i now ems).2 = none ∧
        lookupAssoc (savePage st i now ems).1.manifest.pages i.url =
          some { emptyPageInfo with
                 url := i.url,
                 status := "skipped",
                 errorMessage := "duplicate of " ++ orig.url,
                 contentHash := calculateContentHash i.cleanedContent,
                 crawledAt := now,
                 processingTime := ems } ∧
        (savePage st i now ems).1.manifest.statistics.duplicatePages =
          st.manifest.statistics.duplicatePages + 1) ∧
    (i.cleanedContent.utf8ByteSize < 500 →
        ∃ t p, (savePage st i now ems).2 = some t ∧ t.pageInfo = some p ∧
          p.status = "completed" ∧
          p.contentHash = calculateContentHash
            ("URL:" ++ (if i.urlPath = "" then "/" else i.urlPath) ++ "\nTITLE:" ++
             (if i.title.trim = "" then "Untitled" else i.title.trim) ++ "\n" ++
             i.cleanedContent)) := by
  have h200' : ¬(i.statusCode ≠ 200) := by simp [h200]
  have hlen' : ¬(i.cleanedContent.utf8ByteSize < 100) := by omega
  constructor
  · intro cachedURL orig h500 hlook hdup
    have h500' : ¬(i.cleanedContent.utf8ByteSize < 500) := by omega
    refine ⟨?_, ?_, ?_⟩ <;>
      simp only [savePage, if_neg h200', if_neg hlen', if_neg h500', hlook, hdup,
        if_pos h500, addPage_pages, addPage_duplicatePages,
        lookupAssoc_setAssoc_self]
  · intro h500
    have h500' : ¬(500 ≤ i.cleanedContent.utf8ByteSize) := by omega
    rcases hc : lookupAssoc st.contentCache
        (calculateContentHash
          ("URL:" ++ (if i.urlPath = "" then "/" else i.urlPath) ++ "\nTITLE:" ++
           (if i.title.trim = "" then "Untitled" else i.title.trim) ++ "\n" ++
           i.cleanedContent)) with _ | u <;>
      simp only [savePage, if_neg h200', if_neg hlen', if_pos h500, hc,
        if_neg h500'] <;>
      exact ⟨_, _, rfl, rfl, rfl, rfl⟩

set_option maxRecDepth 20000 in
/-- C3 (witness): `savePage_duplicate_threshold` applied at concrete
inputs — a 500-byte duplicate is skipped with a message naming the
original URL, and a 150-byte page completes with the composed hash. -/
theorem savePage_duplicate_threshold_witness :
    ((savePage stC3 inputC3 7 3).2 = none ∧
     lookupAssoc (savePage stC3 inputC3 7 3).1.manifest.pages inputC3.url =
       some { emptyPageInfo with
              url := inputC3.url,
              status := "skipped",
              errorMessage := "duplicate of " ++ pageC3.url,
              contentHash := calculateContentHash inputC3.cleanedContent,
              crawledAt := 7,
              processingTime := 3 } ∧
     (savePage stC3 inputC3 7 3).1.manifest.statistics.duplicatePages =
       stC3.manifest.statistics.duplicatePages + 1) ∧
    (∃ t p, (savePage stC3 inputC3s 7 3).2 = some t ∧ t.pageInfo = some p ∧
      p.status = "completed" ∧
      p.contentHash = calculateContentHash
        ("URL:" ++ (if inputC3s.urlPath = "" then "/" else inputC3s.urlPath) ++
         "\nTITLE:" ++
         (if inputC3s.title.trim = "" then "Untitled" else inputC3s.title.trim) ++
         "\n" ++ inputC3s.cleanedContent)) :=
  ⟨(savePage_duplicate_threshold stC3 inputC3 7 3 rfl (by decide)).1
     "https://example.test/a" pageC3 (by decide) (by decide) (by decide),
   (savePage_duplicate_threshold stC3 inputC3s 7 3 rfl (by decide)).2 (by decide)⟩

theorem slugify_some_eq (path : String) :
    slugify (some path) =
      if path = "" ∨ path = "/" then "index"
      else if slugChars path = [] then "index"
      else if 200 < (slugChars path).length then String.mk ((slugChars path).take 200)
      else String.mk (slugChars path) := rfl

theorem mem_dropWhile_subset {p : Char → Bool} {l : List Char} :
    ∀ c ∈ l.dropWhile p, c ∈ l := by
  induction l with
  | nil => intro c hc; exact absurd hc (by simp)
  | cons a rest ih =>
    intro c hc
    rw [List.dropWhile_cons] at hc
    by_cases h : p a
    · simp only [h, if_true] at hc
      exact List.mem_cons_of_mem a (ih c hc)
    · simp only [h, if_false] at hc
      exact hc

theorem mem_trimChar_subset (t : Char) (l : List Char) :
    ∀ c ∈ trimChar t l, c ∈ l := by
  intro c hc
  rw [trimChar, List.mem_reverse] at hc
  have h1 := mem_dropWhile_subset c hc
  rw [List.mem_reverse] at h1
  exact mem_dropWhile_subset c h1

theorem mem_collapseHyphens_subset (l : List Char) :
    ∀ c ∈ collapseHyphens l, c ∈ l := by
  induction l with
  | nil =>
    intro c hc
    exact absurd hc (by simp [collapseHyphens])
  | cons a rest ih =>
    intro c hc
    rw [collapseHyphens] at hc
    rcases hcoll : collapseHyphens rest with _ | ⟨d, tail⟩ <;> rw [hcoll] at hc
    · replace hc : c ∈ [a] := hc
      simp at hc
      simp [hc]
    · replace hc :
          c ∈ (if (a == '-' && d == '-') = true then d :: tail else a :: d :: tail) := hc
      by_cases hd : (a == '-' && d == '-') = true
      · rw [if_pos hd] at hc
        exact List.mem_cons_of_mem a (ih c (hcoll ▸ hc))
      · rw [if_neg hd] at hc
        rcases List.mem_cons.mp hc with h1 | h2
        · simp [h1]
        · exact List.mem_cons_of_mem a (ih c (hcoll ▸ h2))

theorem mem_slugChars_safe (path : String) :
    ∀ c ∈ slugChars path, isSlugSafeChar c := by
  intro c hc
  have h1 := mem_collapseHyphens_subset _ c (mem_trimChar_subset '-' _ c hc)
  obtain ⟨a, _, ha⟩ := List.mem_map.mp h1
  by_cases h : isSlugSafeChar a
  · rw [if_pos h] at ha
    rw [← ha]
    exact h
  · rw [if_neg h] at ha
    rw [← ha]
    decide

/-- C10 (confirmed): for every parse outcome of the input URL, `slugify`
returns a nonempty string of at most 200 characters drawn from ASCII
letters, digits, hyphen and underscore; and it returns `"index"` when
the URL does not parse (`none`), when the path is empty or `"/"`, and
when nothing survives sanitization (instances `"///"` and `"%%%"`). -/
theorem slugify_safe (parsedPath : Option String) :
    slugify parsedPath ≠ "" ∧
    (slugify parsedPath).length ≤ 200 ∧
    (∀ c ∈ (slugify parsedPath).data, isSlugSafeChar c) ∧
    slugify none = "index" ∧
    slugify (some "") = "index" ∧
    slugify (some "/") = "index" ∧
    slugify (some "///") = "index" ∧
    slugify (some "%%%") = "index" := by
  refine ⟨?_, ?_, ?_, rfl, rfl, rfl, by decide, by decide⟩
  · rcases parsedPath with _ | path
    · decide
    · rw [slugify_some_eq]
      split_ifs with ha hb hc2
      · decide
      · decide
      · intro h
        have hdata : List.take 200 (slugChars path) = [] := congrArg String.data h
        rw [List.take_eq_nil_iff] at hdata
        rcases hdata with h1 | h1
        · exact absurd h1 (by norm_num)
        · exact hb h1
      · intro h
        exact hb (congrArg String.data h)
  · rcases parsedPath with _ | path
    · decide
    · rw [slugify_some_eq]
      split_ifs with ha hb hc2
      · decide
      · decide
      · have hlen : (String.mk ((slugChars path).take 200)).length =
            ((slugChars path).take 200).length := rfl
        rw [hlen, List.length_take]
        omega
      · have hlen : (String.mk (slugChars path)).length = (slugChars path).length := rfl
        rw [hlen]
        omega
  · rcases parsedPath with _ | path
    · decide
    · rw [slugify_some_eq]
      split_ifs with ha hb hc2
      · decide
      · decide
      · intro c hc
        replace hc : c ∈ (slugChars path).take 200 := hc
        exact mem_slugChars_safe path c (List.take_subset 200 _ hc)
      · intro c hc
        replace hc : c ∈ slugChars path := hc
        exact mem_slugChars_safe path c hc
